import Mathlib

/-
Shallow embedding of the seating-chart widget in src/app/static/js/seating.js.

Numbers handled by JS as floating point (style coordinates, client
coordinates, rect extents) are modelled as rationals; max/min/comparison
are exact in both settings. DOM seat cards (.seat-card elements) become a
list of Card records; the element reference held by the drag session
becomes an index into that list. Outbound fetch calls become an
append-only list of ApiCall values, so that claims counting network
calls are statements about that list.
-/

namespace Seating

/-- ClassList state of the .name element of a seat card: presence of the
pos and neg classes written by updateScoreVisuals. -/
structure ScoreClasses where
  pos : Bool
  neg : Bool
deriving DecidableEq, Repr

/-- One .seat-card element. left/top mirror style.left/style.top (always
written as numeric px by this code), offsetWidth/offsetHeight the rendered
size, locked mirrors dataset.locked === "true", dragging the dragging
class, lockIcon the className of the optional .lock-btn i element, total
the numeric content of .behaviour-total, scoreCls the classList of the
optional .name element (none models a card without a .name element). -/
structure Card where
  userId : String
  left : ℚ
  top : ℚ
  offsetWidth : ℚ
  offsetHeight : ℚ
  locked : Bool
  dragging : Bool
  lockIcon : Option String
  total : Int
  scoreCls : Option ScoreClasses
deriving DecidableEq, Repr

/-- canvas.getBoundingClientRect() of the seating canvas. -/
structure Rect where
  left : ℚ
  top : ℚ
  width : ℚ
  height : ℚ
deriving DecidableEq, Repr

/-- The extra fields merged into the body of a per-seat update POST:
savePosition(card) sends plain x,y; savePosition(card, \x7bdrag: true\x7d)
tags a drag update; savePosition(card, \x7blocked: b\x7d) a lock update. -/
inductive UpdateExtra where
  | plain
  | drag
  | lockFlag (locked : Bool)
deriving DecidableEq, Repr

/-- One outbound network call issued through apiPost. -/
inductive ApiCall where
  | seatUpdate (userId : String) (x y : ℚ) (extra : UpdateExtra)
  | bulkLockCall (locked : Bool)
  | layoutSave (layoutName : String) (overwrite : Bool)
deriving DecidableEq, Repr

/-- The module-level drag variable when non-null: pointerId, the dragged
card (as an index into the card list), and the grab offsets dx, dy. -/
structure DragSession where
  id : Int
  cardIdx : Nat
  dx : ℚ
  dy : ℚ
deriving DecidableEq, Repr

/-- Widget state: the rendered cards, the drag slot, and the trace of
network calls issued so far. -/
structure SState where
  cards : List Card
  drag : Option DragSession
  calls : List ApiCall
deriving DecidableEq, Repr

/-- Icon class written for a lock flag: fa fa-lock / fa fa-unlock. -/
def lockIconClass (locked : Bool) : String :=
  if locked then "fa fa-lock" else "fa fa-unlock"

/-- updateScoreVisuals on the classList of a .name element: remove pos and
neg, then add pos when total > 0 and neg when total < 0. -/
def updateScoreVisuals (_cls : ScoreClasses) (total : Int) : ScoreClasses :=
  let cleared : ScoreClasses := ⟨false, false⟩
  let withPos := if 0 < total then { cleared with pos := true } else cleared
  if total < 0 then { withPos with neg := true } else withPos

/-- updateScoreVisuals at card level: if (!nameEl) return leaves the card
unchanged when no .name element exists. -/
def updateScoreVisualsCard (card : Card) (total : Int) : Card :=
  match card.scoreCls with
  | none => card
  | some cls => { card with scoreCls := some (updateScoreVisuals cls total) }

/-- The call built by savePosition(card, extra): POST seatingUpdateBase +
userId with body x, y and the extra fields (getCardPosition reads the
numeric style.left/style.top, held directly in Card). -/
def savePositionCall (card : Card) (extra : UpdateExtra) : ApiCall :=
  .seatUpdate card.userId card.left card.top extra

/-- savePosition applied to the card at index i of the state: appends one
seat-update call for that card to the trace. -/
def savePosition (s : SState) (i : Nat) (extra : UpdateExtra) : SState :=
  match s.cards[i]? with
  | none => s
  | some card => { s with calls := s.calls ++ [savePositionCall card extra] }

/-- onPointerDown. hit is the index of the .seat-card the event target
resolves to (none when e.target.closest misses), onBtn whether the target
sits inside a .btn control. A locked card, a button press or a miss
returns with no state change; otherwise the drag slot is filled and the
dragging class added. The grab offsets use the card client rect, which
for a card absolutely positioned in the canvas is the canvas rect origin
plus the card position. -/
def onPointerDown (rect : Rect) (s : SState) (pid : Int) (hit : Option Nat)
    (onBtn : Bool) (clientX clientY : ℚ) : SState :=
  match hit with
  | none => s
  | some i =>
    match s.cards[i]? with
    | none => s
    | some card =>
      if onBtn || card.locked then s
      else
        { s with
          drag := some ⟨pid, i, clientX - (rect.left + card.left),
                        clientY - (rect.top + card.top)⟩,
          cards := s.cards.set i { card with dragging := true } }

/-- onPointerMove: ignored unless a drag session is active and the pointer
id matches; otherwise the candidate position clientX - rect.left - dx is
clamped per axis with max(0, min(v, extent - cardExtent)) and written to
the card. -/
def onPointerMove (rect : Rect) (s : SState) (pid : Int)
    (clientX clientY : ℚ) : SState :=
  match s.drag with
  | none => s
  | some d =>
    if pid ≠ d.id then s
    else
      match s.cards[d.cardIdx]? with
      | none => s
      | some card =>
        let x := max 0 (min (clientX - rect.left - d.dx)
                            (rect.width - card.offsetWidth))
        let y := max 0 (min (clientY - rect.top - d.dy)
                            (rect.height - card.offsetHeight))
        { s with cards := s.cards.set d.cardIdx { card with left := x, top := y } }

/-- onPointerUp: ignored unless a session is active and the pointer id
matches; otherwise the session ends, the dragging class is removed, and
savePosition(card, \x7bdrag: true\x7d) issues one call. -/
def onPointerUp (s : SState) (pid : Int) : SState :=
  match s.drag with
  | none => s
  | some d =>
    if pid ≠ d.id then s
    else
      match s.cards[d.cardIdx]? with
      | none => { s with drag := none }
      | some card =>
        let s2 := { s with drag := none,
                           cards := s.cards.set d.cardIdx { card with dragging := false } }
        savePosition s2 d.cardIdx .drag

/-- The visibilitychange listener: while a drag session is active, flush
the current position as a drag update; the session is not ended. -/
def onVisibility (s : SState) : SState :=
  match s.drag with
  | none => s
  | some d => savePosition s d.cardIdx .drag

/-- Events delivered to the widget handlers. -/
inductive Event where
  | pointerDown (pid : Int) (hit : Option Nat) (onBtn : Bool) (clientX clientY : ℚ)
  | pointerMove (pid : Int) (clientX clientY : ℚ)
  | pointerUp (pid : Int)
  | visibilitychange
deriving DecidableEq, Repr

/-- Dispatch one event to its handler. -/
def step (rect : Rect) (s : SState) : Event → SState
  | .pointerDown pid hit onBtn cx cy => onPointerDown rect s pid hit onBtn cx cy
  | .pointerMove pid cx cy => onPointerMove rect s pid cx cy
  | .pointerUp pid => onPointerUp s pid
  | .visibilitychange => onVisibility s

/-- Process a sequence of events in order. -/
def runEvents (rect : Rect) (s : SState) (es : List Event) : SState :=
  es.foldl (step rect) s

/-- Build a pointer-move event from a (pointerId, clientX, clientY) triple. -/
def mkMove (m : Int × ℚ × ℚ) : Event :=
  .pointerMove m.1 m.2.1 m.2.2

/-- One entry of a layout-load response: user_id after the String(...)
conversion used for the Map key, x and y as parseFloat results (none for
an unparseable or missing value), locked after the !! coercion. -/
structure PosEntry where
  user_id : String
  x : Option ℚ
  y : Option ℚ
  locked : Bool
deriving DecidableEq, Repr

/-- Lookup in the Map built from the position list: for duplicate keys the
later entry wins, hence find? over the reversed list. -/
def lookupById (ps : List PosEntry) (k : String) : Option PosEntry :=
  ps.reverse.find? (fun p => p.user_id = k)

/-- applyPositions: every card whose userId has an entry in the response
gets left/top (parseFloat || 0), the locked flag and the lock icon from
that entry; cards without an entry are returned untouched. -/
def applyPositions (ps : List PosEntry) (cs : List Card) : List Card :=
  cs.map (fun card =>
    match lookupById ps card.userId with
    | none => card
    | some p =>
      { card with
        left := p.x.getD 0,
        top := p.y.getD 0,
        locked := p.locked,
        lockIcon := card.lockIcon.map (fun _ => lockIconClass p.locked) })

/-- Outcome of one behaviour-adjust round trip: failed when apiPost threw
(transport failure or ok: false payload), total the parseInt result on
payload.total of a successful response (none when not parseable). -/
structure AdjustResponse where
  failed : Bool
  total : Option Int
deriving DecidableEq, Repr

/-- The behaviour-button branch of the canvas click listener, applied to
its card once the response is known: a failed call is only logged (catch
branch, card untouched); on success the displayed total becomes
parseInt(payload.total, 10) || 0 and the score visuals are recomputed. -/
def behaviourClick (card : Card) (resp : AdjustResponse) : Card :=
  if resp.failed then card
  else
    let total := resp.total.getD 0
    updateScoreVisualsCard { card with total := total } total

/-- bulkLock(flag): set the locked flag and icon on every rendered card,
then issue one course-scoped bulk_lock call. -/
def bulkLock (flag : Bool) (s : SState) : SState :=
  { s with
    cards := s.cards.map (fun card =>
      { card with locked := flag,
                  lockIcon := card.lockIcon.map (fun _ => lockIconClass flag) }),
    calls := s.calls ++ [.bulkLockCall flag] }

/-- One option element of the layout select. -/
structure LayoutOption where
  value : String
  text : String
deriving DecidableEq, Repr

/-- Inputs read by handleSaveLayout: the free-text field value, the option
list of the select, the index of the selected option (selectedOptions[0];
a select with options always has a selected option, the first by
default), and the answer the user would give to the overwrite confirm. -/
structure SaveLayoutInput where
  rawInput : String
  options : List LayoutOption
  selectedIdx : Nat
  confirmOverwrite : Bool
deriving DecidableEq, Repr

/-- Result of handleSaveLayout up to the network boundary. -/
inductive SaveOutcome where
  | alertNoName
  | declined
  | call (layoutName : String) (overwrite : Bool)
deriving DecidableEq, Repr

/-- The .trim() call applied to the free-text name: drop leading and
trailing whitespace characters. -/
def jsTrim (s : String) : String :=
  ⟨((s.data.dropWhile Char.isWhitespace).reverse.dropWhile Char.isWhitespace).reverse⟩

/-- handleSaveLayout: resolve the name as the trimmed free text, else the
selected option text; alert and stop when empty; when the free text is
empty and the select value is non-empty, ask for overwrite confirmation
and stop on decline; otherwise issue the save call. -/
def handleSaveLayout (st : SaveLayoutInput) : SaveOutcome :=
  let rawName := jsTrim st.rawInput
  let selOpt := st.options[st.selectedIdx]?
  let selectedName := (selOpt.map (fun o => o.text)).getD ""
  let layoutName := if rawName = "" then selectedName else rawName
  if layoutName = "" then .alertNoName
  else
    let selValue := (selOpt.map (fun o => o.value)).getD ""
    if rawName = "" ∧ selValue ≠ "" then
      if st.confirmOverwrite then .call layoutName true else .declined
    else .call layoutName false

/-- The placeholder option refreshLayouts writes as the first option of
the select. -/
def placeholderText : String := "Select saved layout…"

/-- The option list produced by refreshLayouts from a listed (id, name)
catalog: the placeholder followed by one option per layout. -/
def refreshedOptions (layouts : List (String × String)) : List LayoutOption :=
  ⟨"", placeholderText⟩ :: layouts.map (fun ln => ⟨ln.1, ln.2⟩)

/-- A concrete unlocked card used by witnesses. -/
def cardA : Card :=
  { userId := "7", left := 3, top := 4, offsetWidth := 10, offsetHeight := 8,
    locked := false, dragging := false, lockIcon := some "fa fa-unlock",
    total := 0, scoreCls := some ⟨false, false⟩ }

/-- A concrete locked card. -/
def cardLocked : Card := { cardA with userId := "8", locked := true }

/-- A concrete card displaying total 7. -/
def cardT7 : Card := { cardA with total := 7 }

/-- A concrete canvas rect. -/
def rectA : Rect := ⟨0, 0, 100, 50⟩

/-- A concrete drag session holding cardA at index 0. -/
def dragA : DragSession := ⟨1, 0, 2, 2⟩

/-- A state mid-drag on cardA. -/
def stateA : SState := { cards := [cardA], drag := some dragA, calls := [] }

/-- An idle state with one unlocked and one locked card. -/
def stateB : SState := { cards := [cardA, cardLocked], drag := none, calls := [] }

/-- A drag during which the tab visibility changes before release. -/
def dragVisUpEvents : List Event :=
  [.pointerDown 1 (some 0) false 10 10, .visibilitychange, .pointerUp 1]

/-- A response entry matching none of the cards of stateB. -/
def entryZ : PosEntry := ⟨"99", some 1, some 2, true⟩

/-- Save-layout inputs: empty free text, nothing chosen, so the
placeholder option produced by refreshLayouts is the selected option. -/
def saveStateNoSelection : SaveLayoutInput :=
  { rawInput := "", options := refreshedOptions [("1", "Front rows")],
    selectedIdx := 0, confirmOverwrite := false }

/-- Save-layout inputs: empty free text, catalog entry 1 selected, user
declines the overwrite confirmation. -/
def saveStateDecline : SaveLayoutInput :=
  { rawInput := "", options := refreshedOptions [("1", "Front rows")],
    selectedIdx := 1, confirmOverwrite := false }

/-- C1: for every pointer-move event processed while a drag session is
active (matching pointer id, dragged card present, card no larger than the
canvas), the position written by onPointerMove satisfies
0 ≤ x ≤ width − cardWidth and 0 ≤ y ≤ height − cardHeight, for every
pointer coordinate, including ones far outside the surface. -/
theorem onPointerMove_clamps_to_bounds (rect : Rect) (s : SState) (pid : Int)
    (clientX clientY : ℚ) (d : DragSession) (card : Card)
    (hdrag : s.drag = some d) (hpid : pid = d.id)
    (hcard : s.cards[d.cardIdx]? = some card)
    (hw : card.offsetWidth ≤ rect.width) (hh : card.offsetHeight ≤ rect.height) :
    ∃ card2,
      (onPointerMove rect s pid clientX clientY).cards[d.cardIdx]? = some card2 ∧
      0 ≤ card2.left ∧ card2.left ≤ rect.width - card.offsetWidth ∧
      0 ≤ card2.top ∧ card2.top ≤ rect.height - card.offsetHeight := by
  have hlen : d.cardIdx < s.cards.length := (List.getElem?_eq_some_iff.mp hcard).1
  subst hpid
  refine ⟨{ card with
      left := max 0 (min (clientX - rect.left - d.dx) (rect.width - card.offsetWidth)),
      top := max 0 (min (clientY - rect.top - d.dy) (rect.height - card.offsetHeight)) },
    ?_, le_max_left 0 _, max_le (sub_nonneg.mpr hw) (min_le_right _ _),
    le_max_left 0 _, max_le (sub_nonneg.mpr hh) (min_le_right _ _)⟩
  unfold onPointerMove
  rw [hdrag]
  simp [hcard, hlen]

/-- C1 witness: a concrete mid-drag state with the pointer far outside the
canvas. -/
theorem onPointerMove_clamps_witness :
    ∃ card2,
      (onPointerMove rectA stateA 1 500 (-500)).cards[dragA.cardIdx]? = some card2 ∧
      0 ≤ card2.left ∧ card2.left ≤ rectA.width - cardA.offsetWidth ∧
      0 ≤ card2.top ∧ card2.top ≤ rectA.height - cardA.offsetHeight :=
  onPointerMove_clamps_to_bounds rectA stateA 1 500 (-500) dragA cardA rfl rfl rfl
    (by norm_num [cardA, rectA]) (by norm_num [cardA, rectA])

/-- C2: pointer-down on a locked card leaves the widget state unchanged:
no drag session is created, no card position changes, and no call is
issued. -/
theorem onPointerDown_locked_noop (rect : Rect) (s : SState) (pid : Int)
    (i : Nat) (onBtn : Bool) (cx cy : ℚ) (card : Card)
    (hcard : s.cards[i]? = some card) (hlocked : card.locked = true) :
    onPointerDown rect s pid (some i) onBtn cx cy = s := by
  unfold onPointerDown
  simp [hcard, hlocked]

/-- C2 witness: stateB with its locked card at index 1. -/
theorem onPointerDown_locked_noop_witness :
    onPointerDown rectA stateB 1 (some 1) false 10 10 = stateB :=
  onPointerDown_locked_noop rectA stateB 1 1 false 10 10 cardLocked rfl rfl

/-- C6: updateScoreVisuals puts the name element in exactly one of the
three score states (pos exactly when total > 0, neg exactly when
total < 0, neither when total = 0), never both at once, and repeated
invocation with the same total produces the same visible state. -/
theorem updateScoreVisuals_exclusive_idempotent (cls : ScoreClasses) (total : Int) :
    (updateScoreVisuals cls total).pos = decide (0 < total) ∧
    (updateScoreVisuals cls total).neg = decide (total < 0) ∧
    ¬((updateScoreVisuals cls total).pos = true ∧
      (updateScoreVisuals cls total).neg = true) ∧
    updateScoreVisuals (updateScoreVisuals cls total) total
      = updateScoreVisuals cls total := by
  by_cases h1 : 0 < total <;> by_cases h2 : total < 0
  · exact absurd h1 (by omega)
  all_goals simp [updateScoreVisuals, h1, h2]

-- Frame facts used by the drag-session claims: a pointer-move event never
-- touches the drag slot, the call trace or the number of cards.
theorem onPointerMove_frame (rect : Rect) (s : SState) (pid : Int) (cx cy : ℚ) :
    (onPointerMove rect s pid cx cy).drag = s.drag ∧
    (onPointerMove rect s pid cx cy).calls = s.calls ∧
    (onPointerMove rect s pid cx cy).cards.length = s.cards.length := by
  unfold onPointerMove
  cases hd : s.drag with
  | none => exact ⟨hd, rfl, rfl⟩
  | some d =>
    by_cases hp : pid ≠ d.id
    · simp [hp, hd]
    · cases hc : s.cards[d.cardIdx]? <;> simp [hp, hc, hd]

-- Processing any list of pointer-move events preserves the drag slot, the
-- call trace and the number of cards.
theorem runMoves_frame (rect : Rect) (ms : List (Int × ℚ × ℚ)) (s : SState) :
    (runEvents rect s (ms.map mkMove)).drag = s.drag ∧
    (runEvents rect s (ms.map mkMove)).calls = s.calls ∧
    (runEvents rect s (ms.map mkMove)).cards.length = s.cards.length := by
  induction ms generalizing s with
  | nil => exact ⟨rfl, rfl, rfl⟩
  | cons m ms ih =>
    have h1 := onPointerMove_frame rect s m.1 m.2.1 m.2.2
    have h2 := ih (onPointerMove rect s m.1 m.2.1 m.2.2)
    have hstep : runEvents rect s ((m :: ms).map mkMove)
        = runEvents rect (onPointerMove rect s m.1 m.2.1 m.2.2) (ms.map mkMove) := rfl
    rw [hstep]
    exact ⟨h2.1.trans h1.1, h2.2.1.trans h1.2.1, h2.2.2.trans h1.2.2⟩

-- A pointer-up matching the active session appends exactly one call.
theorem onPointerUp_matching_calls (s : SState) (d : DragSession)
    (hdrag : s.drag = some d) (hidx : d.cardIdx < s.cards.length) :
    (onPointerUp s d.id).calls.length = s.calls.length + 1 := by
  have hc : s.cards[d.cardIdx]? = some (s.cards[d.cardIdx]) :=
    List.getElem?_eq_some_iff.mpr ⟨hidx, rfl⟩
  unfold onPointerUp
  rw [hdrag]
  simp [hc, savePosition, hidx]

/-- C3 counterexample: the run pointer-down, visibilitychange, matching
pointer-up is a completed drag (the down starts a session, the up ends
it), yet it issues two save calls, not exactly one: the visibility flush
adds a drag-tagged save while the session is active. -/
theorem drag_with_visibilitychange_two_saves :
    (runEvents rectA stateB [Event.pointerDown 1 (some 0) false 10 10]).drag.isSome = true ∧
    (runEvents rectA stateB dragVisUpEvents).drag = none ∧
    (runEvents rectA stateB dragVisUpEvents).calls.length = 2 := by
  decide

/-- C3 amended: for every completed drag in which no visibilitychange
fires during the session — a pointer-down starting a session, any
sequence of pointer-move events, then the matching pointer-up — exactly
one position-save call is issued, including the zero-distance
press-release with no intervening move events. -/
theorem completed_drag_one_save (rect : Rect) (s : SState) (pid : Int) (i : Nat)
    (cx cy : ℚ) (card : Card) (ms : List (Int × ℚ × ℚ))
    (hcard : s.cards[i]? = some card) (hlocked : card.locked = false) :
    (onPointerUp (runEvents rect (onPointerDown rect s pid (some i) false cx cy)
        (ms.map mkMove)) pid).calls.length = s.calls.length + 1 := by
  have hlen : i < s.cards.length := (List.getElem?_eq_some_iff.mp hcard).1
  have h1drag : (onPointerDown rect s pid (some i) false cx cy).drag
      = some ⟨pid, i, cx - (rect.left + card.left), cy - (rect.top + card.top)⟩ := by
    unfold onPointerDown
    simp [hcard, hlocked]
  have h1calls : (onPointerDown rect s pid (some i) false cx cy).calls = s.calls := by
    unfold onPointerDown
    simp [hcard, hlocked]
  have h1len : (onPointerDown rect s pid (some i) false cx cy).cards.length
      = s.cards.length := by
    unfold onPointerDown
    simp [hcard, hlocked]
  obtain ⟨h2drag, h2calls, h2len⟩ :=
    runMoves_frame rect ms (onPointerDown rect s pid (some i) false cx cy)
  have hup := onPointerUp_matching_calls
    (runEvents rect (onPointerDown rect s pid (some i) false cx cy) (ms.map mkMove))
    ⟨pid, i, cx - (rect.left + card.left), cy - (rect.top + card.top)⟩
    (h2drag.trans h1drag)
    (by rw [h2len, h1len]; exact hlen)
  rw [hup, h2calls, h1calls]

/-- C3 amended witness: a concrete zero-distance press-release on the
unlocked card of stateB issues exactly one save call. -/
theorem completed_drag_one_save_witness :
    (onPointerUp (runEvents rectA (onPointerDown rectA stateB 1 (some 0) false 10 10)
        (([] : List (Int × ℚ × ℚ)).map mkMove)) 1).calls.length
      = stateB.calls.length + 1 :=
  completed_drag_one_save rectA stateB 1 0 10 10 cardA [] rfl rfl

/-- C4: a successful score-adjust response carrying total t makes the
displayed total exactly t, whatever total the card displayed before — the
server-returned total overrides any local delta arithmetic. -/
theorem behaviourClick_server_total_wins (card : Card) (t : Int) :
    (behaviourClick card { failed := false, total := some t }).total = t := by
  cases h : card.scoreCls <;>
    simp [behaviourClick, updateScoreVisualsCard, h]

/-- C5 counterexample: cardT7 displays total 7; for a +1 click
(delta = 1) a failed call leaves 7 displayed and a successful call
without a parseable total displays 0 — in neither case does the display
become T + delta = 8. -/
theorem behaviourClick_no_delta_fallback :
    (behaviourClick cardT7 ⟨true, none⟩).total = 7 ∧
    (behaviourClick cardT7 ⟨false, none⟩).total = 0 ∧
    (7 : Int) + 1 ≠ 7 ∧ (7 : Int) + 1 ≠ 0 := by
  decide

/-- C5 amended: a failed score-adjust call leaves the displayed total
unchanged (the catch branch only logs), and a successful call whose
payload carries no parseable total displays 0 (the parseInt-or-0
fallback); the code never computes T + delta. -/
theorem behaviourClick_fallback (card : Card) (t : Option Int) :
    (behaviourClick card { failed := true, total := t }).total = card.total ∧
    (behaviourClick card { failed := false, total := none }).total = 0 := by
  refine ⟨by simp [behaviourClick], ?_⟩
  cases h : card.scoreCls <;>
    simp [behaviourClick, updateScoreVisualsCard, h]

/-- C7: evaluation at the failing input — with an empty free-text name
and no catalog entry chosen, selectedOptions[0] is the placeholder option
written by refreshLayouts, its text resolves as the layout name, and
handleSaveLayout reaches the network call named after the placeholder
instead of stopping at the empty-name guard; the other precondition case
(catalog entry selected, overwrite confirmation declined) does stop with
no call. -/
theorem handleSaveLayout_placeholder_leaks :
    handleSaveLayout saveStateNoSelection = .call placeholderText false ∧
    handleSaveLayout saveStateDecline = .declined := by
  decide

-- A card key that appears in no response entry misses the Map lookup.
theorem lookupById_eq_none (ps : List PosEntry) (k : String)
    (h : ∀ p ∈ ps, p.user_id ≠ k) : lookupById ps k = none := by
  unfold lookupById
  rw [List.find?_eq_none]
  intro p hp
  simpa using h p (List.mem_reverse.mp hp)

/-- C8: load-layout applies entries only to matching seats — a card whose
userId appears in no response entry is returned unchanged (position and
lock state retained), and appending a response entry whose user_id
matches no rendered card leaves the whole result unchanged (unknown ids
are silently ignored). -/
theorem applyPositions_only_matching :
    (∀ (ps : List PosEntry) (cs : List Card) (i : Nat) (card : Card),
      cs[i]? = some card → (∀ p ∈ ps, p.user_id ≠ card.userId) →
      (applyPositions ps cs)[i]? = some card) ∧
    (∀ (ps : List PosEntry) (q : PosEntry) (cs : List Card),
      (∀ card ∈ cs, q.user_id ≠ card.userId) →
      applyPositions (ps ++ [q]) cs = applyPositions ps cs) := by
  constructor
  · intro ps cs i card hi hnone
    unfold applyPositions
    rw [List.getElem?_map, hi]
    simp [lookupById_eq_none ps card.userId hnone]
  · intro ps q cs hq
    unfold applyPositions
    apply List.map_congr_left
    intro card hcard
    have hlk : lookupById (ps ++ [q]) card.userId = lookupById ps card.userId := by
      unfold lookupById
      rw [List.reverse_append]
      simp [hq card hcard]
    rw [hlk]

/-- C8 witness: a card matched by no entry survives a load untouched, and
an unknown-id entry appended to the response changes nothing. -/
theorem applyPositions_only_matching_witness :
    (applyPositions [entryZ] [cardA])[(0 : Nat)]? = some cardA ∧
    applyPositions ([] ++ [entryZ]) [cardA] = applyPositions [] [cardA] :=
  ⟨applyPositions_only_matching.1 [entryZ] [cardA] 0 cardA rfl (by decide),
   applyPositions_only_matching.2 [] entryZ [cardA] (by decide)⟩

/-- C9: bulkLock issues exactly one network call — the single
course-scoped bulk_lock call appended to the trace — regardless of how
many cards are rendered, and optimistically sets the locked flag, and the
lock icon where one exists, on every rendered card. -/
theorem bulkLock_one_call_all_cards (flag : Bool) (s : SState) :
    (bulkLock flag s).calls = s.calls ++ [ApiCall.bulkLockCall flag] ∧
    (bulkLock flag s).cards.map (fun c => c.locked)
      = s.cards.map (fun _ => flag) ∧
    (bulkLock flag s).cards.map (fun c => c.lockIcon)
      = s.cards.map (fun c => c.lockIcon.map (fun _ => lockIconClass flag)) := by
  refine ⟨rfl, ?_, ?_⟩ <;> simp [bulkLock, Function.comp_def]

/-- C10: for every response and card list, applyPositions changes only
position, lock flag and lock icon — the userId, rendered size, dragging
class, score total and score-color classes of every card, matched or not,
are unchanged. -/
theorem applyPositions_preserves_scores (ps : List PosEntry) (cs : List Card) :
    (applyPositions ps cs).map
        (fun c => (c.userId, c.offsetWidth, c.offsetHeight, c.dragging,
                   c.total, c.scoreCls))
      = cs.map
        (fun c => (c.userId, c.offsetWidth, c.offsetHeight, c.dragging,
                   c.total, c.scoreCls)) := by
  unfold applyPositions
  rw [List.map_map]
  apply List.map_congr_left
  intro card hcard
  dsimp only [Function.comp]
  cases h : lookupById ps card.userId <;> simp [h]

end Seating
